import Mathlib

/-!
Verification of the room-to-recommendation pipeline of the nyumba-ai-marketplace
repository. The definitions below are shallow embeddings of the TypeScript
source (src/server/videoAnalysis.ts, ai-analyzer.ts, room-compositor.ts,
routers.ts, uploadRouter.ts): pure functions become Lean functions, the
database state touched by the upload entry points becomes explicit state
passing, and the fallible external calls of the asynchronous analysis run
(LLM invocation, JSON parsing, analysis persistence) become Boolean
parameters selecting which step, if any, throws. JavaScript strings are
modelled as Lean `String` with character-list operations mirroring
`toLowerCase`/`includes`; `Math.round(base * multiplier)` over the decimal
multiplier table is modelled exactly with rational arithmetic encoded as a
scaled natural-number division.
-/

set_option autoImplicit false
set_option linter.unusedVariables false

namespace Nyumba

/-- Lower-case a character list; models JavaScript `String.prototype.toLowerCase`
applied to the ASCII product/category names the pipeline handles. -/
def lowerCL (cs : List Char) : List Char := cs.map Char.toLower

/-- Boolean prefix test on character lists (structural recursion so the kernel
can evaluate it). -/
def isPrefixOfCL : List Char → List Char → Bool
  | [], _ => true
  | _ :: _, [] => false
  | a :: as, b :: bs => a == b && isPrefixOfCL as bs

/-- `clContains s sub` holds iff `sub` occurs contiguously inside `s`;
models JavaScript `String.prototype.includes`. -/
def clContains (s sub : List Char) : Bool :=
  match s with
  | [] => sub.isEmpty
  | _ :: rest => isPrefixOfCL sub s || clContains rest sub

/-- `jsIncludes s sub` : does the string `s` contain `sub`?
Models JavaScript `s.includes(sub)`. -/
def jsIncludes (s sub : String) : Bool := clContains s.data sub.data

/-- Lower-case a string; models JavaScript `s.toLowerCase()`. -/
def jsToLower (s : String) : String := String.mk (lowerCL s.data)

/-- `jsRoundScaled base num den` = `Math.round(base * (num/den))` for natural
`base` and a non-negative rational multiplier `num/den` (`den > 0`):
`floor(base*num/den + 1/2) = (2*base*num + den) / (2*den)` in natural division.
The decimal multipliers of the source (0.6, 1.0, 1.8, 3.0) are represented
exactly as the fractions 3/5, 1/1, 9/5, 3/1. -/
def jsRoundScaled (base num den : Nat) : Nat := (2 * base * num + den) / (2 * den)

/-- JavaScript truthiness of an optional string (`undefined`/`null`/`""` are
falsy). -/
def jsStrTruthy : Option String → Bool
  | none => false
  | some s => s ≠ ("")

/-- `jsOrElseStr v d` models `v || d` for an optional string `v`. -/
def jsOrElseStr (v : Option String) (d : String) : String :=
  match v with
  | some s => if s = ("") then d else s
  | none => d

/-- MediaAsset status values (videos/photos tables, src/server/db.ts). -/
inductive Status where
  | processing
  | completed
  | failed
  deriving DecidableEq, Repr

/-- A coarse recommendation group as produced by the analyzer LLM call in
videoAnalysis.ts (fields category, items, reasoning, priceRange, whereToFind).
`priceRange`/`whereToFind` are optional because the code guards them with
`||` defaults. -/
structure RecGroup where
  category : String
  items : List String
  reasoning : String
  priceRange : Option String
  whereToFind : Option String
  deriving DecidableEq, Repr

/-- A vendor catalog product as read by `getAllProducts` (src/server/db.ts).
`imageUrls` is stored JSON-encoded in the database; it is modelled as the
decoded list, with `none` for a null/absent value (the code tests
`p.imageUrls ? JSON.parse(p.imageUrls)[0] : null`). -/
structure Product where
  id : Nat
  name : String
  category : String
  description : Option String
  priceKES : Nat
  imageUrls : Option (List String)
  budgetTier : Option String
  isActive : Bool
  deriving DecidableEq, Repr

/-- A resolved product entry pushed by `matchProductsToRecommendations` or
`generateAIProductRecommendations` (videoAnalysis.ts). The virtual path also
sets `priceRange`/`whereToFind`; the matched path leaves them absent. -/
structure ResolvedProduct where
  productId : Option Nat
  name : String
  category : String
  priceKES : Nat
  priceRange : Option String
  whereToFind : Option String
  imageUrl : Option String
  reasoning : String
  isVirtual : Bool
  deriving DecidableEq, Repr

/-- A recommendation group after resolution (the objects pushed onto `matched`
in videoAnalysis.ts). `priceRange`/`whereToFind` are set on the AI-virtual
path and absent on the vendor-matched path. -/
structure MatchedGroup where
  category : String
  items : List String
  products : List ResolvedProduct
  reasoning : String
  priceRange : Option String
  whereToFind : Option String
  deriving DecidableEq, Repr

/-- A placement hotspot pushed by `generateProductPlacements`
(videoAnalysis.ts lines 327-337). -/
structure Placement where
  productId : Option Nat
  name : String
  category : String
  priceKES : Nat
  imageUrl : Option String
  x : Nat
  y : Nat
  reasoning : String
  isVirtual : Bool
  deriving DecidableEq, Repr

/-- First image of a product: models
`p.imageUrls ? JSON.parse(p.imageUrls)[0] : null` (an empty decoded array
indexes to `undefined`, i.e. `none`). -/
def productImage (p : Product) : Option String :=
  match p.imageUrls with
  | some l => l.head?
  | none => none

/-- Base price keyed by keyword match on the lowered item name
(videoAnalysis.ts lines 197-211): `basePrice` starts at 10000 and the
if/else-if cascade overwrites it on the first matching keyword. -/
def basePriceForItem (itemName : String) : Nat :=
  let lowerItem := lowerCL itemName.data
  if clContains lowerItem (("sofa").data) || clContains lowerItem (("couch").data) then 35000
  else if clContains lowerItem (("chair").data) then 8000
  else if clContains lowerItem (("table").data) then 15000
  else if clContains lowerItem (("bed").data) then 40000
  else if clContains lowerItem (("lamp").data) || clContains lowerItem (("light").data) then 3000
  else if clContains lowerItem (("rug").data) || clContains lowerItem (("carpet").data) then 12000
  else if clContains lowerItem (("art").data) || clContains lowerItem (("painting").data) then 5000
  else if clContains lowerItem (("curtain").data) || clContains lowerItem (("drape").data) then 6000
  else if clContains lowerItem (("shelf").data) || clContains lowerItem (("bookcase").data) then 10000
  else 10000

/-- The own-property portion of the `multipliers` object lookup of
videoAnalysis.ts lines 214-221, with `|| 1.0` folded in: valid exactly when
the key is one of the four tier names or misses the whole prototype chain
(then `multipliers[key]` is `undefined` and `|| 1.0` applies). Keys
inherited from `Object.prototype` (e.g. "toString") behave differently in
JavaScript; the full lookup is modelled by `multipliersLookup` below.
Multipliers are exact fractions (num, den): 0.6 = 3/5, 1.0 = 1/1,
1.8 = 9/5, 3.0 = 3/1. -/
def tierMultiplier (tier : String) : Nat × Nat :=
  if tier = ("economy") then (3, 5)
  else if tier = ("mid-range") then (1, 1)
  else if tier = ("premium") then (9, 5)
  else if tier = ("luxury") then (3, 1)
  else (1, 1)

/-- `estimatePriceForItem` (videoAnalysis.ts lines 197-224):
`Math.round(basePrice * multiplier)` where
`multiplier = budgetTier ? (multipliers[budgetTier] || 1.0) : 1.0`. -/
def estimatePriceForItem (itemName : String) (budgetTier : Option String) : Nat :=
  let basePrice := basePriceForItem itemName
  let m : Nat × Nat :=
    match budgetTier with
    | some t => if t ≠ ("") then tierMultiplier t else (1, 1)
    | none => (1, 1)
  jsRoundScaled basePrice m.1 m.2

/-- Base price table as the specification words it: 35000 for names containing
sofa/couch, 8000 for chair, 15000 for table, 40000 for bed, 3000 for
lamp/light, 12000 for rug/carpet, 5000 for art/painting, 6000 for
curtain/drape, 10000 for shelf/bookcase, else 10000, reading the listed
keywords in order of priority. Kept separate from `basePriceForItem` (which is
transcribed from the source) so their agreement is a theorem. -/
def specBasePrice (itemName : String) : Nat :=
  let lowerItem := lowerCL itemName.data
  if clContains lowerItem (("sofa").data) || clContains lowerItem (("couch").data) then 35000
  else if clContains lowerItem (("chair").data) then 8000
  else if clContains lowerItem (("table").data) then 15000
  else if clContains lowerItem (("bed").data) then 40000
  else if clContains lowerItem (("lamp").data) || clContains lowerItem (("light").data) then 3000
  else if clContains lowerItem (("rug").data) || clContains lowerItem (("carpet").data) then 12000
  else if clContains lowerItem (("art").data) || clContains lowerItem (("painting").data) then 5000
  else if clContains lowerItem (("curtain").data) || clContains lowerItem (("drape").data) then 6000
  else if clContains lowerItem (("shelf").data) || clContains lowerItem (("bookcase").data) then 10000
  else 10000

/-- `generateAIProductRecommendations` (videoAnalysis.ts lines 164-192):
per group, synthesize virtual products from the first 3 recommended item
names, with `productId = null`, `isVirtual = true` and the heuristic price. -/
def generateAIProductRecommendations (recommendations : List RecGroup)
    (budgetTier : Option String) : List MatchedGroup :=
  recommendations.map (fun rec =>
    { category := rec.category
      items := rec.items
      products := (rec.items.take 3).map (fun item =>
        { productId := none
          name := item
          category := rec.category
          priceKES := estimatePriceForItem item budgetTier
          priceRange := some (jsOrElseStr rec.priceRange ("Contact vendors for pricing"))
          whereToFind := some (jsOrElseStr rec.whereToFind ("Available from local Kenyan vendors"))
          imageUrl := none
          reasoning := rec.reasoning
          isVirtual := true })
      reasoning := rec.reasoning
      priceRange := rec.priceRange
      whereToFind := rec.whereToFind })

/-- The per-group loop body of `matchProductsToRecommendations`
(videoAnalysis.ts lines 232-268), written as structural recursion over the
recommendation list; the group is appended exactly when `selectedProducts`
is non-empty, as in the source. -/
def matchGroups : List RecGroup → List Product → List MatchedGroup
  | [], _ => []
  | rec :: rest, products =>
    let category := jsToLower rec.category
    let matchingProducts := products.filter (fun p =>
      jsIncludes (jsToLower p.category) category ||
      jsIncludes (jsToLower p.name) category ||
      jsIncludes (jsToLower (jsOrElseStr p.description (""))) category)
    let productsToUse := if matchingProducts.length = 0 then products.take 3 else matchingProducts
    let selectedProducts := (productsToUse.take 3).map (fun p =>
      { productId := some p.id
        name := p.name
        category := p.category
        priceKES := p.priceKES
        priceRange := none
        whereToFind := none
        imageUrl := productImage p
        reasoning := rec.reasoning
        isVirtual := false : ResolvedProduct })
    if selectedProducts.length > 0 then
      { category := rec.category
        items := rec.items
        products := selectedProducts
        reasoning := rec.reasoning
        priceRange := none
        whereToFind := none : MatchedGroup } :: matchGroups rest products
    else matchGroups rest products

/-- `matchProductsToRecommendations` (videoAnalysis.ts lines 229-288): the
per-group loop followed by the last-resort synthetic "Recommended" group,
emitted when no groups were produced and the catalog is non-empty; note that
the synthetic group takes `products.slice(0, 4)` — up to FOUR products. -/
def matchProductsToRecommendations (recommendations : List RecGroup)
    (products : List Product) : List MatchedGroup :=
  let matched := matchGroups recommendations products
  if matched.length = 0 ∧ products.length > 0 then
    [{ category := ("Recommended")
       items := [("furniture"), ("decor")]
       products := (products.take 4).map (fun p =>
         { productId := some p.id
           name := p.name
           category := p.category
           priceKES := p.priceKES
           priceRange := none
           whereToFind := none
           imageUrl := productImage p
           reasoning := ("Curated selection for your space")
           isVirtual := false : ResolvedProduct })
       reasoning := ("Curated selection for your space")
       priceRange := none
       whereToFind := none }]
  else matched

/-- The resolver dispatch of `analyzeRoomVideo` (videoAnalysis.ts lines
104-120), on the path where the catalog read succeeds: if any product exists,
optionally tier-filter (`!p.budgetTier || p.budgetTier === budgetTier`) and
match; otherwise synthesize virtual recommendations. -/
def resolveSuggestedProducts (recommendations : List RecGroup)
    (allProducts : List Product) (budgetTier : Option String) : List MatchedGroup :=
  if allProducts.length > 0 then
    let filteredProducts :=
      if jsStrTruthy budgetTier then
        allProducts.filter (fun p => !(jsStrTruthy p.budgetTier) || p.budgetTier == budgetTier)
      else allProducts
    matchProductsToRecommendations recommendations filteredProducts
  else generateAIProductRecommendations recommendations budgetTier

/-- Zone templates of `generateProductPlacements` (videoAnalysis.ts lines
296-318), as ordered (x, y) anchor lists. -/
def livingRoomZones : List (Nat × Nat) :=
  [(30, 60), (70, 55), (50, 40), (20, 30), (80, 30), (50, 20)]

/-- Bedroom zone template (5 anchors). -/
def bedroomZones : List (Nat × Nat) :=
  [(50, 60), (25, 50), (75, 50), (50, 30), (50, 20)]

/-- Default zone template (4 anchors) for unrecognized room types. -/
def defaultZones : List (Nat × Nat) :=
  [(30, 50), (70, 50), (50, 35), (50, 65)]

/-- The template selected by `zones[roomType.toLowerCase()] || zones.default`
(videoAnalysis.ts line 320) for lowered keys that are own properties of the
`zones` literal or miss the whole prototype chain (then the lookup is
`undefined` and `|| zones.default` applies; a lowered key of "default" hits
`zones.default` directly, with the same result). The two lowered keys
inherited from `Object.prototype` ("constructor" and "__proto__") behave
differently in JavaScript; the full lookup is modelled by `roomZonesJs`
below. -/
def roomZones (roomType : String) : List (Nat × Nat) :=
  if jsToLower roomType = ("living room") then livingRoomZones
  else if jsToLower roomType = ("bedroom") then bedroomZones
  else defaultZones

/-- One placement record (videoAnalysis.ts lines 327-337):
`reasoning: product.reasoning || category.reasoning`,
`isVirtual: product.isVirtual || false`. -/
def mkPlacement (p : ResolvedProduct) (g : MatchedGroup) (z : Nat × Nat) : Placement :=
  { productId := p.productId
    name := p.name
    category := p.category
    priceKES := p.priceKES
    imageUrl := p.imageUrl
    x := z.1
    y := z.2
    reasoning := if p.reasoning = ("") then g.reasoning else p.reasoning
    isVirtual := p.isVirtual }

/-- The inner loop of `generateProductPlacements` over
`category.products.slice(0, 2)` with the shared `zoneIndex`: pushes a
placement and increments the index only while `zoneIndex < roomZones.length`.
Returns the placements pushed for this group and the updated index. -/
def placeInGroup (g : MatchedGroup) (zs : List (Nat × Nat)) :
    List ResolvedProduct → Nat → List Placement × Nat
  | [], zi => ([], zi)
  | p :: rest, zi =>
    if h : zi < zs.length then
      let out := placeInGroup g zs rest (zi + 1)
      (mkPlacement p g (zs.get ⟨zi, h⟩) :: out.1, out.2)
    else placeInGroup g zs rest zi

/-- The outer loop of `generateProductPlacements` over the groups. The
source's `if (category.products && category.products.length > 0)` guard is
behaviourally redundant (an empty slice contributes nothing) and is folded
into the inner recursion. -/
def placeGroups (zs : List (Nat × Nat)) : List MatchedGroup → Nat → List Placement
  | [], _ => []
  | g :: gs, zi =>
    let out := placeInGroup g zs (g.products.take 2) zi
    out.1 ++ placeGroups zs gs out.2

/-- `generateProductPlacements` (videoAnalysis.ts lines 293-345). -/
def generateProductPlacements (suggestedProducts : List MatchedGroup)
    (roomType : String) : List Placement :=
  placeGroups (roomZones roomType) suggestedProducts 0

/-- The ordered list of placement candidates: for each group in order, the
first at most 2 of its products, paired with their group. Used to state what
`generateProductPlacements` assigns zones to. -/
def placementCandidates : List MatchedGroup → List (ResolvedProduct × MatchedGroup)
  | [] => []
  | g :: gs => (g.products.take 2).map (fun p => (p, g)) ++ placementCandidates gs

/-- The sequence of `updateVideoStatus` calls emitted by one run of
`analyzeRoomVideo` (videoAnalysis.ts lines 9-158), with one Boolean per
fallible step of the `try` body: `validId` (the videoId guard of lines
12-15), `llmOk` (the `invokeLLM` call and the `JSON.parse` of its content,
lines 51-101), `persistOk` (the `createVideoAnalysis` insert of line 145).
The catalog read of line 106 has its own internal catch and cannot fail the
run. Returns the emitted updates and whether the body completed. On the
success path the source sets "completed" TWICE (lines 144 and 146), with the
persistence call in between. -/
def analyzeRoomVideoBody (validId llmOk persistOk : Bool) : List Status × Bool :=
  if !validId then ([], false)
  else
    let tr := [Status.processing]
    if !llmOk then (tr, false)
    else
      let tr := tr ++ [Status.completed]
      if !persistOk then (tr, false)
      else (tr ++ [Status.completed], true)

/-- Full status-update trace of `analyzeRoomVideo`: the `catch` block of line
153-157 appends a "failed" update whenever the body threw. -/
def analyzeRoomVideoStatusTrace (validId llmOk persistOk : Bool) : List Status :=
  let out := analyzeRoomVideoBody validId llmOk persistOk
  if out.2 then out.1 else out.1 ++ [Status.failed]

/-- Checks the claimed status-machine discipline on an update trace: once a
terminal status (completed or failed) has been written, no further status
update of any kind occurs. -/
def noUpdateAfterTerminal : List Status → Bool
  | [] => true
  | s :: rest =>
    match s with
    | Status.processing => noUpdateAfterTerminal rest
    | _ => rest.isEmpty

/-- User preferences (src/server/ai-analyzer.ts, interface UserPreferences).
The string-enum fields are modelled as strings. -/
structure UserPreferences where
  budget : String
  roomType : String
  favoriteColors : List String
  stylePreference : String
  priorities : List String
  spaceSize : String
  deriving DecidableEq, Repr

/-- A fine-grained product recommendation (src/server/ai-analyzer.ts,
interface ProductRecommendation): named product with optional normalized
position and size boxes (percentages). -/
structure FineRec where
  category : String
  productName : String
  reason : String
  placement : String
  priority : String
  estimatedBudget : String
  position : Option (Nat × Nat)
  size : Option (Nat × Nat)
  deriving DecidableEq, Repr

/-- Room dimension estimate of the analysis payload. -/
structure RoomDimensions where
  estimatedSize : String
  ceilingHeight : String
  deriving DecidableEq, Repr

/-- Lighting assessment of the analysis payload. -/
structure LightingInfo where
  naturalLight : String
  artificialLight : String
  suggestions : List String
  deriving DecidableEq, Repr

/-- Style assessment of the analysis payload. -/
structure StyleInfo where
  current : String
  recommended : String
  deriving DecidableEq, Repr

/-- Color assessment of the analysis payload. -/
structure ColorsInfo where
  dominant : List String
  accent : List String
  recommendations : List String
  deriving DecidableEq, Repr

/-- Furniture assessment of the analysis payload. -/
structure FurnitureInfo where
  existing : List String
  needed : List String
  layout : String
  deriving DecidableEq, Repr

/-- The structured analysis result (src/server/ai-analyzer.ts, interface
RoomAnalysis). -/
structure RoomAnalysisPayload where
  roomType : String
  dimensions : RoomDimensions
  lighting : LightingInfo
  style : StyleInfo
  colors : ColorsInfo
  furniture : FurnitureInfo
  recommendations : List FineRec
  deriving DecidableEq, Repr

/-- `createFallbackAnalysis` (ai-analyzer.ts lines 234-316): the substitute
analysis built from the user's preferences when JSON parsing fails,
transcribed field for field. The response text is taken as a parameter and
ignored, exactly as in the source. -/
def createFallbackAnalysis (responseText : String)
    (preferences : UserPreferences) : RoomAnalysisPayload :=
  { roomType := preferences.roomType
    dimensions :=
      { estimatedSize := preferences.spaceSize
        ceilingHeight := ("Standard (2.7-3m)") }
    lighting :=
      { naturalLight := ("Moderate")
        artificialLight := ("To be added")
        suggestions := [("Add ambient lighting"), ("Consider task lighting")] }
    style :=
      { current := ("Empty/Minimal")
        recommended := preferences.stylePreference }
    colors :=
      { dominant := [("White"), ("Neutral")]
        accent := []
        recommendations := preferences.favoriteColors }
    furniture :=
      { existing := []
        needed := [("Sofa"), ("Coffee Table"), ("Lighting"), ("Decor")]
        layout := ("Open layout optimized for space") }
    recommendations :=
      [ { category := ("furniture"), productName := ("Modern Sofa Set")
          reason := ("Essential seating for living space")
          placement := ("Against main wall"), priority := ("high")
          estimatedBudget := ("KES 80,000 - 150,000")
          position := some (20, 55), size := some (45, 25) },
        { category := ("furniture"), productName := ("Coffee Table")
          reason := ("Functional centerpiece")
          placement := ("Center of seating area"), priority := ("high")
          estimatedBudget := ("KES 20,000 - 40,000")
          position := some (40, 70), size := some (20, 15) },
        { category := ("lighting"), productName := ("Floor Lamp")
          reason := ("Ambient lighting")
          placement := ("Corner or beside sofa"), priority := ("medium")
          estimatedBudget := ("KES 15,000 - 25,000")
          position := some (75, 60), size := some (8, 20) },
        { category := ("decor"), productName := ("Wall Art")
          reason := ("Add personality and color")
          placement := ("Main wall"), priority := ("medium")
          estimatedBudget := ("KES 10,000 - 30,000")
          position := some (30, 20), size := some (25, 20) },
        { category := ("plants"), productName := ("Indoor Plants")
          reason := ("Natural element and air quality")
          placement := ("Corner or shelf"), priority := ("low")
          estimatedBudget := ("KES 5,000 - 15,000")
          position := some (10, 65), size := some (10, 15) } ] }

/-- Index of the last character satisfying a predicate. -/
def findLastIdxCL (p : Char → Bool) (cs : List Char) : Option Nat :=
  (cs.reverse.findIdx? p).map (fun k => cs.length - 1 - k)

/-- The regex extraction of `parseAnalysisResponse` (ai-analyzer.ts line 217):
a greedy brace-to-brace match spans from the first opening brace to the last
closing brace, provided the latter comes after the former. -/
def extractBraceSpan (s : String) : Option String :=
  let cs := s.data
  match cs.findIdx? (fun c => c == Char.ofNat 123), findLastIdxCL (fun c => c == Char.ofNat 125) cs with
  | some i, some j =>
    if i < j then some (String.mk ((cs.drop i).take (j - i + 1))) else none
  | _, _ => none

/-- `parseAnalysisResponse` (ai-analyzer.ts lines 211-229). The behaviour of
`JSON.parse` plus the unvalidated cast to RoomAnalysis is abstracted as the
`jsonParse` parameter (`none` models a parse exception, caught on line 225).
On every failure path the function returns the fallback analysis — it never
throws. -/
def parseAnalysisResponse (jsonParse : String → Option RoomAnalysisPayload)
    (responseText : String) (preferences : UserPreferences) : RoomAnalysisPayload :=
  match extractBraceSpan responseText with
  | some jsonMatch =>
    match jsonParse jsonMatch with
    | some parsed => parsed
    | none => createFallbackAnalysis responseText preferences
  | none => createFallbackAnalysis responseText preferences

/-- A composite layer staged by the compositor (room-compositor.ts lines
100-104); the image buffer itself is outside the model. -/
structure CompositeLayer where
  top : Nat
  left : Nat
  deriving DecidableEq, Repr

/-- A product position reported by the compositor (room-compositor.ts lines
106-112). -/
structure ProductPosition where
  productName : String
  x : Nat
  y : Nat
  width : Nat
  height : Nat
  deriving DecidableEq, Repr

/-- The compositor's result (room-compositor.ts, interface CompositeResult);
the base64 "after" image is outside the model. -/
structure CompositeResult where
  productPositions : List ProductPosition
  deriving DecidableEq, Repr

/-- JavaScript `v || d` for an optional natural number (0 is falsy), used for
`roomMetadata.width || 1280`. -/
def jsNatOrElse (v : Option Nat) (d : Nat) : Nat :=
  match v with
  | some n => if n = 0 then d else n
  | none => d

/-- The per-recommendation loop of `compositeProductsOntoRoom`
(room-compositor.ts lines 55-117): skip when position or size is missing;
skip when the product-image lookup has no entry; otherwise stage a layer and
record a product position. The fallible per-item image fetch/resize (whose
exception is caught by the per-item `catch` of line 114 and results in a
skip) is abstracted as the `fetchOk` oracle on the looked-up image path.
Returns the staged layers and the recorded positions, in recommendation
order. -/
def processRecs (roomWidth roomHeight : Nat) (lookup : String → Option String)
    (fetchOk : String → Bool) : List FineRec → List CompositeLayer × List ProductPosition
  | [] => ([], [])
  | rec :: rest =>
    let out := processRecs roomWidth roomHeight lookup fetchOk rest
    match rec.position, rec.size with
    | some pos, some sz =>
      match lookup rec.productName with
      | none => out
      | some path =>
        if fetchOk path then
          let left := jsRoundScaled (pos.1 * roomWidth) 1 100
          let top := jsRoundScaled (pos.2 * roomHeight) 1 100
          let w := jsRoundScaled (sz.1 * roomWidth) 1 100
          let h := jsRoundScaled (sz.2 * roomHeight) 1 100
          ({ top := top, left := left } :: out.1,
           { productName := rec.productName, x := left, y := top
             width := w, height := h } :: out.2)
        else out
    | _, _ => out

/-- `compositeProductsOntoRoom` (room-compositor.ts lines 25-137) restricted
to its observable position data: decode dimensions with the 1280x720
fallback, run the per-recommendation loop, and return a CompositeResult.
Per-item failures only skip that item; the function always returns a result
(the outer catch of line 133 concerns the base-image I/O, which is outside
this pure model). -/
def compositeProductsOntoRoom (widthMeta heightMeta : Option Nat)
    (recommendations : List FineRec) (productImages : String → Option String)
    (fetchOk : String → Bool) : CompositeResult :=
  let roomWidth := jsNatOrElse widthMeta 1280
  let roomHeight := jsNatOrElse heightMeta 720
  let out := processRecs roomWidth roomHeight productImages fetchOk recommendations
  { productPositions := out.2 }

/-- A photo MediaAsset row (src/server/db.ts `createPhoto`). -/
structure PhotoRecord where
  id : Nat
  userId : Nat
  photoUrl : String
  status : Status
  budgetTier : Option String
  deriving DecidableEq, Repr

/-- The slice of database state the upload entry points can touch. -/
structure DbState where
  photos : List PhotoRecord
  nextId : Nat
  deriving DecidableEq, Repr

/-- Errors surfaced synchronously by the upload entry points (TRPCError with
code BAD_REQUEST is the validation rejection). -/
inductive UploadError where
  | validationError (message : String)
  deriving DecidableEq, Repr

/-- The `uploadPhoto` mutation (routers.ts lines 97-143): the 16MB size check
runs before `db.createPhoto`; on the oversize path `photoId` is still 0, so
the catch block's `if (photoId > 0)` status write cannot run and the error is
rethrown with the database untouched. On the success path a photo row with
status "processing" is created and the AI analysis is kicked off
fire-and-forget (no further synchronous state change). `now` models
`Date.now()`. -/
def uploadPhoto (st : DbState) (userId now : Nat) (fileName : String)
    (fileSize : Nat) (budgetTier : Option String) :
    Except UploadError (Nat × String) × DbState :=
  if fileSize > 16 * 1024 * 1024 then
    (Except.error (UploadError.validationError ("Photo file size must be less than 16MB")), st)
  else
    let photoKey := ("photos/") ++ toString userId ++ ("/") ++ toString now ++ ("-") ++ fileName
    let photoUrl := ("https://demo-photo-storage.com/") ++ photoKey
    let record : PhotoRecord :=
      { id := st.nextId, userId := userId, photoUrl := photoUrl
        status := Status.processing, budgetTier := budgetTier }
    (Except.ok (st.nextId, photoUrl),
     { photos := st.photos ++ [record], nextId := st.nextId + 1 })

/-- The `analyzeRoomVideo` mutation of uploadRouter.ts (lines 284-388): the
50MB size check rejects first; no path of this demo handler creates a
MediaAsset row (it works on temp files and returns `Date.now()` as a pseudo
id), so the database state is threaded unchanged. -/
def analyzeRoomVideoUpload (st : DbState) (fileSize : Nat) :
    Except UploadError Unit × DbState :=
  if fileSize > 50 * 1024 * 1024 then
    (Except.error (UploadError.validationError ("Video file too large. Maximum size is 50MB.")), st)
  else (Except.ok (), st)

/-- A catalog product fixture for concrete scenarios. -/
def productFixture (i : Nat) (nm : String) : Product :=
  { id := i, name := nm, category := ("furniture"), description := none
    priceKES := 1000 * i, imageUrls := none, budgetTier := none, isActive := true }

/-- Four catalog products (none match any recommendation, and the
recommendation list used with them is empty). -/
def prodsC2 : List Product :=
  [productFixture 1 ("Acacia Bench"), productFixture 2 ("Mahogany Stool"),
   productFixture 3 ("Sisal Basket"), productFixture 4 ("Clay Pot")]

/-- A coarse recommendation-group fixture. -/
def recGroupFixture (cat : String) (items : List String) : RecGroup :=
  { category := cat, items := items, reasoning := ("fits the space")
    priceRange := none, whereToFind := none }

/-- Two recommendation groups of three items each (scenario of C6). -/
def recsC6 : List RecGroup :=
  [recGroupFixture ("Seating") [("3-seater Sofa"), ("Accent Chair"), ("Coffee Table")],
   recGroupFixture ("Bedroom") [("Bed Frame"), ("Wall Art"), ("Area Rug")]]

/-- A resolved-product fixture. -/
def rpFixture (nm : String) : ResolvedProduct :=
  { productId := none, name := nm, category := ("decor"), priceKES := 5000
    priceRange := none, whereToFind := none, imageUrl := none
    reasoning := ("adds warmth"), isVirtual := true }

/-- A matched-group fixture. -/
def mgFixture (cat : String) (ps : List ResolvedProduct) : MatchedGroup :=
  { category := cat, items := [], products := ps
    reasoning := ("group reasoning"), priceRange := none, whereToFind := none }

/-- Four groups of two products each: eight placement candidates (scenario of
C7). -/
def groupsC7 : List MatchedGroup :=
  [mgFixture ("g1") [rpFixture ("p1"), rpFixture ("p2")],
   mgFixture ("g2") [rpFixture ("p3"), rpFixture ("p4")],
   mgFixture ("g3") [rpFixture ("p5"), rpFixture ("p6")],
   mgFixture ("g4") [rpFixture ("p7"), rpFixture ("p8")]]

/-- A fine recommendation fixture with position and size. -/
def fineRecFixture (nm : String) (px py w h : Nat) : FineRec :=
  { category := ("furniture"), productName := nm, reason := ("fits")
    placement := ("wall"), priority := ("high"), estimatedBudget := ("KES 10,000")
    position := some (px, py), size := some (w, h) }

/-- Five fine recommendations, all with position and size (scenario of C8). -/
def recsC8 : List FineRec :=
  [fineRecFixture ("Sofa Set") 20 55 45 25,
   fineRecFixture ("Coffee Table") 40 70 20 15,
   fineRecFixture ("Floor Lamp") 75 60 8 20,
   fineRecFixture ("Wall Art") 30 20 25 20,
   fineRecFixture ("Indoor Plants") 10 65 10 15]

/-- A product-image lookup covering three of the five names of `recsC8`. -/
def lookupC8 : String → Option String := fun nm =>
  if nm = ("Sofa Set") then some ("images/sofa.png")
  else if nm = ("Coffee Table") then some ("images/table.png")
  else if nm = ("Floor Lamp") then some ("images/lamp.png")
  else none

/-- Concrete user preferences for the parse-failure scenario. -/
def prefsC3 : UserPreferences :=
  { budget := ("mid-range"), roomType := ("living room")
    favoriteColors := [("terracotta")], stylePreference := ("modern")
    priorities := [("comfort")], spaceSize := ("medium") }

/-- The own member names of `Object.prototype` (V8/Node): bracket indexing a
plain object literal with any of these keys traverses the prototype chain
and finds a truthy function (or, for "__proto__", the truthy
`Object.prototype` itself) instead of `undefined`. -/
def objectPrototypeMemberNames : List String :=
  [("constructor"), ("hasOwnProperty"), ("isPrototypeOf"), ("propertyIsEnumerable"),
   ("toLocaleString"), ("toString"), ("valueOf"),
   ("__defineGetter__"), ("__defineSetter__"), ("__lookupGetter__"), ("__lookupSetter__"),
   ("__proto__")]

/-- A JavaScript number that is either NaN or one of the (non-negative
integer) values this pipeline computes. -/
inductive JsNum where
  | nan
  | int (n : Nat)
  deriving DecidableEq, Repr

/-- What `multipliers[tier]` evaluates to in JavaScript. -/
inductive MultiplierValue where
  | mult (num den : Nat)
  | inherited
  | undef
  deriving DecidableEq, Repr

/-- The full `multipliers[tier]` lookup of videoAnalysis.ts lines 214-221,
including the prototype chain: an own key yields its multiplier; a key
inherited from `Object.prototype` yields a truthy function/object
(`inherited`); any other key yields `undefined`. -/
def multipliersLookup (tier : String) : MultiplierValue :=
  if tier = ("economy") then MultiplierValue.mult 3 5
  else if tier = ("mid-range") then MultiplierValue.mult 1 1
  else if tier = ("premium") then MultiplierValue.mult 9 5
  else if tier = ("luxury") then MultiplierValue.mult 3 1
  else if tier ∈ objectPrototypeMemberNames then MultiplierValue.inherited
  else MultiplierValue.undef

/-- `estimatePriceForItem` (videoAnalysis.ts lines 197-224) with the full
JavaScript lookup semantics: `multiplier = budgetTier ?
(multipliers[budgetTier] || 1.0) : 1.0` followed by
`Math.round(basePrice * multiplier)`. For an own tier key the multiplier is
its number; for an absent key the lookup is `undefined` (falsy) and `|| 1.0`
applies; for a key inherited from `Object.prototype` the lookup is a truthy
function/object, `|| 1.0` does NOT apply, `ToNumber` of it is NaN, so
`basePrice * multiplier` and `Math.round` of it are NaN. The empty-string
tier is falsy at the outer conditional, giving multiplier 1.0.
`estimatePriceForItem` above is the restriction of this function away from
the inherited keys. -/
def estimatePriceForItemJs (itemName : String) (budgetTier : Option String) : JsNum :=
  let basePrice := basePriceForItem itemName
  match budgetTier with
  | some t =>
    if t ≠ ("") then
      match multipliersLookup t with
      | MultiplierValue.mult num den => JsNum.int (jsRoundScaled basePrice num den)
      | MultiplierValue.inherited => JsNum.nan
      | MultiplierValue.undef => JsNum.int (jsRoundScaled basePrice 1 1)
    else JsNum.int (jsRoundScaled basePrice 1 1)
  | none => JsNum.int (jsRoundScaled basePrice 1 1)

/-- What `zones[roomType.toLowerCase()] || zones.default` evaluates to in
JavaScript. Besides the two own template keys and the default, the only
lowered keys that do not miss the prototype chain are the all-lowercase
member names of `Object.prototype`: "constructor" (the truthy `Object`
constructor function) and "__proto__" (the truthy `Object.prototype`);
`toLowerCase` can never produce the other, mixed-case member names. -/
inductive ZonesValue where
  | template (zs : List (Nat × Nat))
  | protoObject
  | constructorFn
  deriving DecidableEq, Repr

/-- The full `zones[roomType.toLowerCase()] || zones.default` lookup of
videoAnalysis.ts line 320, including the prototype chain. A lowered key of
"default" hits `zones.default` directly, the same template the `||` default
yields. -/
def roomZonesJs (roomType : String) : ZonesValue :=
  if jsToLower roomType = ("living room") then ZonesValue.template livingRoomZones
  else if jsToLower roomType = ("bedroom") then ZonesValue.template bedroomZones
  else if jsToLower roomType = ("constructor") then ZonesValue.constructorFn
  else if jsToLower roomType = ("__proto__") then ZonesValue.protoObject
  else ZonesValue.template defaultZones

/-- A thrown JavaScript TypeError (reading a property of `undefined`). -/
inductive JsError where
  | typeError
  deriving DecidableEq, Repr

/-- `generateProductPlacements` (videoAnalysis.ts lines 293-345) with the
full JavaScript lookup semantics for the zone template. When the lookup
yields a template list, the loops run as in `placeGroups`. When it yields
the inherited `Object.prototype` (lowered room type "__proto__"),
`roomZones.length` is `undefined`, `zoneIndex < undefined` is false for
every candidate, and the loop pushes nothing: zero placements, no error.
When it yields the inherited `Object` constructor (lowered room type
"constructor"), `roomZones.length` is 1 (the function's arity), so the
first candidate passes the bound check, `roomZones[0]` is `undefined`, and
reading `.x` on it throws a TypeError; with no candidates at all the loop
body never runs and the empty list is returned. -/
def generateProductPlacementsJs (suggestedProducts : List MatchedGroup)
    (roomType : String) : Except JsError (List Placement) :=
  match roomZonesJs roomType with
  | ZonesValue.template zs => Except.ok (placeGroups zs suggestedProducts 0)
  | ZonesValue.protoObject => Except.ok []
  | ZonesValue.constructorFn =>
    if placementCandidates suggestedProducts = [] then Except.ok []
    else Except.error JsError.typeError

/-- C1. The claim says a MediaAsset's status moves exactly once from
processing to a terminal state and is never mutated again — in particular
never from completed to failed. The source violates this: on the success
path it writes "completed" twice (videoAnalysis.ts lines 144 and 146) with
the `createVideoAnalysis` insert in between, and when that insert throws the
catch block (line 155) writes "failed" AFTER "completed" was already
written. Both traces re-mutate a terminal status. -/
theorem claim_C1_status_remutation :
    analyzeRoomVideoStatusTrace true true true
        = [Status.processing, Status.completed, Status.completed]
    ∧ noUpdateAfterTerminal (analyzeRoomVideoStatusTrace true true true) = false
    ∧ analyzeRoomVideoStatusTrace true true false
        = [Status.processing, Status.completed, Status.failed]
    ∧ noUpdateAfterTerminal (analyzeRoomVideoStatusTrace true true false) = false := by
  decide

/-- C4. The price heuristic returns `Math.round(base * multiplier)` with the
base table of the specification (`specBasePrice`) and the tier multipliers
0.6 / 1.0 / 1.8 / 3.0 (exactly 3/5, 1/1, 9/5, 3/1), multiplier 1 when no
tier is given; and the three concrete values of the claim hold. -/
theorem claim_C4_price_heuristic :
    (∀ item : String,
      estimatePriceForItem item none = jsRoundScaled (specBasePrice item) 1 1
      ∧ estimatePriceForItem item (some ("economy")) = jsRoundScaled (specBasePrice item) 3 5
      ∧ estimatePriceForItem item (some ("mid-range")) = jsRoundScaled (specBasePrice item) 1 1
      ∧ estimatePriceForItem item (some ("premium")) = jsRoundScaled (specBasePrice item) 9 5
      ∧ estimatePriceForItem item (some ("luxury")) = jsRoundScaled (specBasePrice item) 3 1)
    ∧ estimatePriceForItem ("Leather Sofa") (some ("luxury")) = 105000
    ∧ estimatePriceForItem ("Floor Lamp") (some ("economy")) = 1800
    ∧ estimatePriceForItem ("Obelisk") none = 10000 :=
  ⟨fun item => ⟨rfl, rfl, rfl, rfl, rfl⟩, by decide, by decide, by decide⟩

/-- C10 counterexample. The claim quantifies over every non-tier string, but
for a key inherited from `Object.prototype` the JavaScript lookup
`multipliers["toString"]` finds a truthy function, `|| 1.0` never applies,
and `Math.round(basePrice * fn)` is NaN — not the no-tier price: at
item "Armchair" and tier "toString" the program returns NaN while the
no-tier price is 8000. -/
theorem claim_C10_counterexample :
    estimatePriceForItemJs ("Armchair") (some ("toString")) = JsNum.nan
    ∧ estimatePriceForItemJs ("Armchair") none = JsNum.int 8000
    ∧ estimatePriceForItemJs ("Armchair") (some ("toString"))
        ≠ estimatePriceForItemJs ("Armchair") none := by
  decide

/-- The own-property model `estimatePriceForItem` agrees with the full
JavaScript model wherever the tier is absent or is not an inherited
`Object.prototype` member name. -/
theorem estimatePriceForItemJs_agrees (item : String) (tier : Option String)
    (h : ∀ t, tier = some t → t ∉ objectPrototypeMemberNames) :
    estimatePriceForItemJs item tier = JsNum.int (estimatePriceForItem item tier) := by
  cases tier with
  | none => rfl
  | some t =>
    have ht : t ∉ objectPrototypeMemberNames := h t rfl
    unfold estimatePriceForItemJs estimatePriceForItem multipliersLookup tierMultiplier
    by_cases he : t = ("")
    · simp [he]
    · by_cases h1 : t = ("economy")
      · simp [he, h1]
      · by_cases h2 : t = ("mid-range")
        · simp [he, h1, h2]
        · by_cases h3 : t = ("premium")
          · simp [he, h1, h2, h3]
          · by_cases h4 : t = ("luxury")
            · simp [he, h1, h2, h3, h4]
            · simp [he, h1, h2, h3, h4, ht]

/-- C10 amended. For every budgetTier string that is neither one of the four
tier names nor an own member name of `Object.prototype`, the lookup yields
`undefined`, `|| 1.0` silently applies, and the price equals the no-tier
price (the unknown tier is not rejected); for the inherited member names the
lookup finds a truthy function/object, `|| 1.0` does not apply, and the
price is NaN. -/
theorem claim_C10_amended :
    (∀ (item tier : String),
       tier ∉ [("economy"), ("mid-range"), ("premium"), ("luxury")] →
       tier ∉ objectPrototypeMemberNames →
       estimatePriceForItemJs item (some tier) = estimatePriceForItemJs item none)
    ∧ (∀ (item tier : String), tier ∈ objectPrototypeMemberNames →
       estimatePriceForItemJs item (some tier) = JsNum.nan) := by
  constructor
  · intro item tier h1 h2
    have e1 : ¬ tier = ("economy") := by intro e; exact h1 (by simp [e])
    have e2 : ¬ tier = ("mid-range") := by intro e; exact h1 (by simp [e])
    have e3 : ¬ tier = ("premium") := by intro e; exact h1 (by simp [e])
    have e4 : ¬ tier = ("luxury") := by intro e; exact h1 (by simp [e])
    unfold estimatePriceForItemJs multipliersLookup
    by_cases he : tier = ("")
    · simp [he]
    · simp [he, e1, e2, e3, e4, h2]
  · intro item tier h
    fin_cases h <;> rfl

/-- Witness for the amended C10: the mis-capitalized tier "Luxury" prices as
no-tier, while the inherited key "toString" yields NaN. -/
theorem claim_C10_amended_witness :
    estimatePriceForItemJs ("Armchair") (some ("Luxury")) = estimatePriceForItemJs ("Armchair") none
    ∧ estimatePriceForItemJs ("Armchair") (some ("toString")) = JsNum.nan :=
  ⟨claim_C10_amended.1 ("Armchair") ("Luxury") (by decide) (by decide),
   claim_C10_amended.2 ("Armchair") ("toString") (by decide)⟩

/-- C9. Oversize uploads are rejected with the validation error before any
MediaAsset row is created: the photo entry point (16MB ceiling, routers.ts)
returns the BAD_REQUEST error with the database unchanged, and the video
entry point (50MB ceiling, uploadRouter.ts) likewise. -/
theorem claim_C9_oversize_rejected :
    (∀ (st : DbState) (userId now : Nat) (fileName : String) (fileSize : Nat)
       (budgetTier : Option String), fileSize > 16 * 1024 * 1024 →
       uploadPhoto st userId now fileName fileSize budgetTier
         = (Except.error (UploadError.validationError ("Photo file size must be less than 16MB")), st))
    ∧ (∀ (st : DbState) (fileSize : Nat), fileSize > 50 * 1024 * 1024 →
       analyzeRoomVideoUpload st fileSize
         = (Except.error (UploadError.validationError ("Video file too large. Maximum size is 50MB.")), st)) := by
  constructor
  · intro st userId now fileName fileSize budgetTier h
    unfold uploadPhoto
    rw [if_pos h]
  · intro st fileSize h
    unfold analyzeRoomVideoUpload
    rw [if_pos h]

/-- Witness for C9: a 60MB submission is rejected by both entry points and
leaves the database state untouched. -/
theorem claim_C9_witness :
    uploadPhoto (DbState.mk [] 1) 7 1000 ("room.jpg") (60 * 1024 * 1024) none
        = (Except.error (UploadError.validationError ("Photo file size must be less than 16MB")), DbState.mk [] 1)
    ∧ analyzeRoomVideoUpload (DbState.mk [] 1) (60 * 1024 * 1024)
        = (Except.error (UploadError.validationError ("Video file too large. Maximum size is 50MB.")), DbState.mk [] 1) :=
  ⟨claim_C9_oversize_rejected.1 (DbState.mk [] 1) 7 1000 ("room.jpg") (60 * 1024 * 1024) none (by decide),
   claim_C9_oversize_rejected.2 (DbState.mk [] 1) (60 * 1024 * 1024) (by decide)⟩

/-- C3 counterexample. The claim says an unparseable model output surfaces an
error and no substitute analysis is returned. In the source,
`parseAnalysisResponse` (ai-analyzer.ts lines 211-229) does the opposite: on
a text with no JSON object (here with a parse oracle that always fails) it
returns the preference-derived substitute built by `createFallbackAnalysis`,
and by its type it cannot raise. -/
theorem claim_C3_counterexample :
    parseAnalysisResponse (fun _ => none) ("model returned prose with no JSON object") prefsC3
      = createFallbackAnalysis ("model returned prose with no JSON object") prefsC3 := by
  rfl

/-- C3 amended. Whenever the model output cannot be parsed as JSON (the
parse oracle fails on every candidate span), `parseAnalysisResponse` returns
the fallback analysis instead of raising; separately, in the
videoAnalysis.ts path a parse failure does mark the asset failed with no
retry (trace ends at a single terminal "failed"). -/
theorem claim_C3_amended_fallback :
    (∀ (jsonParse : String → Option RoomAnalysisPayload) (text : String)
       (prefs : UserPreferences), (∀ s, jsonParse s = none) →
       parseAnalysisResponse jsonParse text prefs = createFallbackAnalysis text prefs)
    ∧ analyzeRoomVideoStatusTrace true false true = [Status.processing, Status.failed] := by
  constructor
  · intro jp text prefs h
    unfold parseAnalysisResponse
    cases hx : extractBraceSpan text with
    | none => rfl
    | some m => simp [h m]
  · decide

/-- Witness for the amended C3 at a concrete unparseable output. -/
theorem claim_C3_amended_witness :
    parseAnalysisResponse (fun _ => none) ("unparseable output") prefsC3
        = createFallbackAnalysis ("unparseable output") prefsC3
    ∧ analyzeRoomVideoStatusTrace true false true = [Status.processing, Status.failed] :=
  ⟨claim_C3_amended_fallback.1 (fun _ => none) ("unparseable output") prefsC3 (fun _ => rfl),
   claim_C3_amended_fallback.2⟩

/-- The compositor records exactly one position per recommendation that has
position, size, a product-image entry, and a successful per-item fetch; all
other recommendations are skipped. -/
theorem processRecs_positions_length (W H : Nat) (lookup : String → Option String)
    (fetchOk : String → Bool) (recs : List FineRec) :
    (processRecs W H lookup fetchOk recs).2.length
      = (recs.filter (fun r => r.position.isSome && r.size.isSome &&
          (match lookup r.productName with
           | some path => fetchOk path
           | none => false))).length := by
  induction recs with
  | nil => rfl
  | cons rec rest ih =>
    unfold processRecs
    cases hp : rec.position with
    | none => simp [List.filter_cons, hp, ih]
    | some pos =>
      cases hs : rec.size with
      | none => simp [List.filter_cons, hp, hs, ih]
      | some sz =>
        cases hl : lookup rec.productName with
        | none => simp [List.filter_cons, hp, hs, hl, ih]
        | some path =>
          by_cases hf : fetchOk path
          · simp [List.filter_cons, hp, hs, hl, hf, ih]
          · simp [List.filter_cons, hp, hs, hl, hf, ih]

/-- C8. The compositor skips, without raising (the embedding is a total
function into `CompositeResult`), every fine recommendation whose product
image is missing from the lookup, and its `productPositions` has exactly one
entry per non-skipped recommendation; in the concrete 5-recommendation
scenario with 2 names missing from the lookup, exactly 3 positions result. -/
theorem claim_C8_compositor_skips :
    (∀ (wMeta hMeta : Option Nat) (recs : List FineRec)
       (lookup : String → Option String) (fetchOk : String → Bool),
       (compositeProductsOntoRoom wMeta hMeta recs lookup fetchOk).productPositions.length
         = (recs.filter (fun r => r.position.isSome && r.size.isSome &&
             (match lookup r.productName with
              | some path => fetchOk path
              | none => false))).length)
    ∧ (compositeProductsOntoRoom none none recsC8 lookupC8 (fun _ => true)).productPositions.length = 3 := by
  constructor
  · intro wMeta hMeta recs lookup fetchOk
    exact processRecs_positions_length (jsNatOrElse wMeta 1280) (jsNatOrElse hMeta 720) lookup fetchOk recs
  · decide

/-- Every group produced by the per-group matching loop carries at most 3
products (`productsToUse.slice(0, 3)`), and each of them is a vendor match:
not virtual, with a product id. -/
theorem matchGroups_products_shape (recs : List RecGroup) (products : List Product) :
    ∀ g ∈ matchGroups recs products,
      g.products.length ≤ 3
      ∧ ∀ p ∈ g.products, p.isVirtual = false ∧ p.productId.isSome = true := by
  induction recs with
  | nil => intro g h; simp [matchGroups] at h
  | cons rec rest ih =>
    intro g h
    simp only [matchGroups] at h
    split at h <;> split at h <;> try exact ih g h
    all_goals
      rcases List.mem_cons.mp h with rfl | h2
      · constructor
        · simp only [List.length_map, List.length_take]
          omega
        · intro p hp
          rcases List.mem_map.mp hp with ⟨q, hq, rfl⟩
          exact ⟨rfl, rfl⟩
      · exact ih g h2

/-- With a non-empty catalog, the per-group loop emits a group for every
recommendation (the generic `products.slice(0, 3)` substitute guarantees
`selectedProducts` is non-empty), so its output is non-empty whenever the
recommendation list is. -/
theorem matchGroups_cons_ne_nil (rec : RecGroup) (rest : List RecGroup)
    (products : List Product) (hp : products ≠ []) :
    matchGroups (rec :: rest) products ≠ [] := by
  have hlen : 0 < products.length := List.length_pos.mpr hp
  simp only [matchGroups]
  split
  · split
    · exact List.cons_ne_nil _ _
    · rename_i hcond
      exfalso
      apply hcond
      simp only [List.length_map, List.length_take]
      omega
  · split
    · exact List.cons_ne_nil _ _
    · rename_i hm hcond
      exfalso
      apply hcond
      simp only [List.length_map, List.length_take]
      omega

/-- C2 counterexample. With an empty recommendation list and a four-product
catalog, the Resolver's output is the single synthetic "Recommended" group
holding 4 products, violating the claimed cap of 3 for every group. -/
theorem claim_C2_counterexample :
    ¬ (∀ g ∈ matchProductsToRecommendations [] prodsC2, g.products.length ≤ 3) := by
  decide

/-- C2 amended. Every group in the Resolver's output has at most 4 products,
and at most 3 whenever the recommendation list is non-empty (the synthetic
fallback group, which alone may carry 4, can only be emitted when zero
groups were produced, which with a non-empty catalog happens only for an
empty recommendation list). -/
theorem claim_C2_amended (recs : List RecGroup) (products : List Product)
    (g : MatchedGroup) (hg : g ∈ matchProductsToRecommendations recs products) :
    g.products.length ≤ 4 ∧ (recs ≠ [] → g.products.length ≤ 3) := by
  simp only [matchProductsToRecommendations] at hg
  split at hg
  · rename_i hcond
    rcases hcond with ⟨h0, hpos⟩
    rcases List.mem_singleton.mp hg with rfl
    constructor
    · simp only [List.length_map, List.length_take]
      omega
    · intro hr
      exfalso
      have hp : products ≠ [] := by
        intro e
        rw [e] at hpos
        simp at hpos
      obtain ⟨rec, rest, rfl⟩ := List.exists_cons_of_ne_nil hr
      exact matchGroups_cons_ne_nil rec rest products hp (List.length_eq_zero.mp h0)
  · have h3 := (matchGroups_products_shape recs products g hg).1
    exact ⟨by omega, fun _ => h3⟩

/-- Witness for the amended C2: a concrete non-fallback group obeys both
bounds. -/
theorem claim_C2_amended_witness :
    ((matchProductsToRecommendations recsC6 prodsC2).get ⟨0, by decide⟩).products.length ≤ 4
    ∧ ((matchProductsToRecommendations recsC6 prodsC2).get ⟨0, by decide⟩).products.length ≤ 3 :=
  ⟨(claim_C2_amended recsC6 prodsC2 _ (by decide)).1,
   (claim_C2_amended recsC6 prodsC2 _ (by decide)).2 (by decide)⟩

/-- C5. In every Resolver path — vendor matching (including its generic
substitute), the synthetic last-resort group, and virtual synthesis —
`isVirtual` is true exactly when `productId` is null. -/
theorem claim_C5_virtual_iff_no_id :
    (∀ (recs : List RecGroup) (products : List Product) (g : MatchedGroup),
       g ∈ matchProductsToRecommendations recs products →
       ∀ p ∈ g.products, (p.isVirtual = true ↔ p.productId = none))
    ∧ (∀ (recs : List RecGroup) (tier : Option String) (g : MatchedGroup),
       g ∈ generateAIProductRecommendations recs tier →
       ∀ p ∈ g.products, (p.isVirtual = true ↔ p.productId = none)) := by
  constructor
  · intro recs products g hg p hp
    simp only [matchProductsToRecommendations] at hg
    split at hg
    · rcases List.mem_singleton.mp hg with rfl
      rcases List.mem_map.mp hp with ⟨q, hq, rfl⟩
      simp
    · have h := (matchGroups_products_shape recs products g hg).2 p hp
      rcases Option.isSome_iff_exists.mp h.2 with ⟨v, hv⟩
      rw [h.1, hv]
      simp
  · intro recs tier g hg p hp
    rcases List.mem_map.mp hg with ⟨rec, hrec, rfl⟩
    rcases List.mem_map.mp hp with ⟨item, hitem, rfl⟩
    simp

/-- Witness for C5: the first virtual product of the first group of a
concrete virtual resolution satisfies the equivalence. -/
theorem claim_C5_witness :
    (((generateAIProductRecommendations recsC6 (some ("economy"))).get ⟨0, by decide⟩).products.get
        ⟨0, by decide⟩).isVirtual = true
    ↔ (((generateAIProductRecommendations recsC6 (some ("economy"))).get ⟨0, by decide⟩).products.get
        ⟨0, by decide⟩).productId = none :=
  claim_C5_virtual_iff_no_id.2 recsC6 (some ("economy"))
    ((generateAIProductRecommendations recsC6 (some ("economy"))).get ⟨0, by decide⟩)
    (by decide)
    (((generateAIProductRecommendations recsC6 (some ("economy"))).get ⟨0, by decide⟩).products.get
        ⟨0, by decide⟩)
    (by decide)

/-- C6. With an empty catalog the Resolver takes the virtual-synthesis path:
it equals `generateAIProductRecommendations`, every group carries at most 3
products, all virtual with null product id and the heuristic tier-scaled
price of their item name; and in the concrete scenario (budget "economy",
2 groups of 3 items) it yields 2 groups of exactly 3 virtual products with
the economy-multiplied prices. -/
theorem claim_C6_empty_catalog :
    (∀ (recs : List RecGroup) (tier : Option String),
       resolveSuggestedProducts recs [] tier = generateAIProductRecommendations recs tier)
    ∧ (∀ (recs : List RecGroup) (tier : Option String) (g : MatchedGroup),
       g ∈ resolveSuggestedProducts recs [] tier →
       g.products.length ≤ 3
       ∧ ∀ p ∈ g.products,
           p.isVirtual = true ∧ p.productId = none
           ∧ p.priceKES = estimatePriceForItem p.name tier)
    ∧ (resolveSuggestedProducts recsC6 [] (some ("economy"))).length = 2
    ∧ (resolveSuggestedProducts recsC6 [] (some ("economy"))).all
        (fun g => g.products.length = 3 && g.products.all (fun p => p.isVirtual)) = true
    ∧ (resolveSuggestedProducts recsC6 [] (some ("economy"))).map
        (fun g => g.products.map (fun p => p.priceKES))
        = [[21000, 4800, 9000], [24000, 3000, 7200]] := by
  refine ⟨fun recs tier => rfl, ?_, by decide, by decide, by decide⟩
  intro recs tier g hg
  rw [show resolveSuggestedProducts recs [] tier
        = generateAIProductRecommendations recs tier from rfl] at hg
  rcases List.mem_map.mp hg with ⟨rec, hrec, rfl⟩
  constructor
  · simp only [List.length_map, List.length_take]
    omega
  · intro p hp
    rcases List.mem_map.mp hp with ⟨item, hitem, rfl⟩
    exact ⟨rfl, rfl, rfl⟩

/-- Witness for C6 at the concrete scenario's first group and product. -/
theorem claim_C6_witness :
    ((resolveSuggestedProducts recsC6 [] (some ("economy"))).get ⟨0, by decide⟩).products.length ≤ 3
    ∧ ((((resolveSuggestedProducts recsC6 [] (some ("economy"))).get ⟨0, by decide⟩).products.get
          ⟨0, by decide⟩).isVirtual = true
       ∧ (((resolveSuggestedProducts recsC6 [] (some ("economy"))).get ⟨0, by decide⟩).products.get
          ⟨0, by decide⟩).productId = none
       ∧ (((resolveSuggestedProducts recsC6 [] (some ("economy"))).get ⟨0, by decide⟩).products.get
          ⟨0, by decide⟩).priceKES
           = estimatePriceForItem
               (((resolveSuggestedProducts recsC6 [] (some ("economy"))).get ⟨0, by decide⟩).products.get
                  ⟨0, by decide⟩).name (some ("economy"))) :=
  ⟨(claim_C6_empty_catalog.2.1 recsC6 (some ("economy"))
      ((resolveSuggestedProducts recsC6 [] (some ("economy"))).get ⟨0, by decide⟩) (by decide)).1,
   (claim_C6_empty_catalog.2.1 recsC6 (some ("economy"))
      ((resolveSuggestedProducts recsC6 [] (some ("economy"))).get ⟨0, by decide⟩) (by decide)).2
     (((resolveSuggestedProducts recsC6 [] (some ("economy"))).get ⟨0, by decide⟩).products.get
        ⟨0, by decide⟩) (by decide)⟩

/-- The inner placement loop, in closed form: it zips the (at most 2)
candidate products of the group with the unused tail of the zone list and
advances the zone index by the number of pairs formed. -/
theorem placeInGroup_eq (g : MatchedGroup) (zs : List (Nat × Nat)) :
    ∀ (ps : List ResolvedProduct) (zi : Nat),
      placeInGroup g zs ps zi
        = ((ps.zip (zs.drop zi)).map (fun pz => mkPlacement pz.1 g pz.2),
           zi + min ps.length (zs.length - zi)) := by
  intro ps
  induction ps with
  | nil =>
    intro zi
    simp [placeInGroup]
  | cons p rest ih =>
    intro zi
    by_cases h : zi < zs.length
    · simp only [placeInGroup, dif_pos h, ih, List.drop_eq_getElem_cons h,
        List.zip_cons_cons, List.map_cons, List.length_cons, List.get_eq_getElem,
        Prod.mk.injEq]
      constructor
      · trivial
      · omega
    · have hd : zs.drop zi = [] := List.drop_eq_nil_of_le (by omega)
      simp only [placeInGroup, dif_neg h, ih, hd, List.zip_nil_right, List.map_nil,
        List.length_cons, Prod.mk.injEq]
      exact ⟨trivial, by omega⟩

/-- Zipping after an append consumes the right list left to right. -/
theorem zip_append_left {α β : Type} (xs ys : List α) (zs : List β) :
    (xs ++ ys).zip zs = xs.zip zs ++ ys.zip (zs.drop xs.length) := by
  induction xs generalizing zs with
  | nil => simp
  | cons x xs ih =>
    cases zs with
    | nil => simp [List.zip_nil_right]
    | cons z zs =>
      simp only [List.cons_append, List.zip_cons_cons, List.length_cons, ih,
        List.drop_succ_cons, List.map_cons]

/-- The outer placement loop, in closed form: the whole placement output is
the candidate list zipped against the unused zones, in order. -/
theorem placeGroups_eq (zs : List (Nat × Nat)) :
    ∀ (gs : List MatchedGroup) (zi : Nat),
      placeGroups zs gs zi
        = ((placementCandidates gs).zip (zs.drop zi)).map
            (fun pz => mkPlacement pz.1.1 pz.1.2 pz.2) := by
  intro gs
  induction gs with
  | nil =>
    intro zi
    simp [placeGroups, placementCandidates]
  | cons g gs ih =>
    intro zi
    simp only [placeGroups, placeInGroup_eq, placementCandidates, ih,
      zip_append_left, List.map_append, List.length_map]
    congr 1
    · rw [List.zip_map_left, List.map_map]
      rfl
    · rw [List.drop_drop]
      by_cases hk : zi + (List.take 2 g.products).length ≤ zs.length
      · have he : zi + min (List.take 2 g.products).length (zs.length - zi)
            = zi + (List.take 2 g.products).length := by omega
        rw [he]
      · have h1 : zs.length ≤ zi + (List.take 2 g.products).length := by omega
        have h2 : zs.length ≤ zi + min (List.take 2 g.products).length (zs.length - zi) := by
          omega
        rw [List.drop_eq_nil_of_le h1, List.drop_eq_nil_of_le h2]

/-- The second components of a zip are a prefix of the right list. -/
theorem map_snd_zip_eq_take {α β : Type} : ∀ (l : List α) (l' : List β),
    (l.zip l').map Prod.snd = l'.take (min l.length l'.length)
  | [], l' => by simp
  | a :: l, [] => by simp [List.zip_nil_right]
  | a :: l, b :: l' => by
      simp only [List.zip_cons_cons, List.map_cons, List.length_cons,
        Nat.succ_min_succ, List.take_succ_cons, map_snd_zip_eq_take l l']

/-- `generateProductPlacements` in closed form. -/
theorem generateProductPlacements_eq (groups : List MatchedGroup) (roomType : String) :
    generateProductPlacements groups roomType
      = ((placementCandidates groups).zip (roomZones roomType)).map
          (fun pz => mkPlacement pz.1.1 pz.1.2 pz.2) := by
  rw [generateProductPlacements, placeGroups_eq, List.drop_zero]

/-- Away from the two lowered keys inherited from `Object.prototype`, the
full zone lookup resolves to the template the own-property model selects. -/
theorem roomZonesJs_eq_template (roomType : String)
    (hc : jsToLower roomType ≠ ("constructor"))
    (hp : jsToLower roomType ≠ ("__proto__")) :
    roomZonesJs roomType = ZonesValue.template (roomZones roomType) := by
  unfold roomZonesJs roomZones
  by_cases h1 : jsToLower roomType = ("living room")
  · simp [h1]
  · by_cases h2 : jsToLower roomType = ("bedroom")
    · simp [h1, h2]
    · simp [h1, h2, hc, hp]

/-- A lowered room type of "__proto__" finds the inherited `Object.prototype`. -/
theorem roomZonesJs_proto (roomType : String)
    (h : jsToLower roomType = ("__proto__")) :
    roomZonesJs roomType = ZonesValue.protoObject := by
  unfold roomZonesJs
  rw [h]
  rfl

/-- A lowered room type of "constructor" finds the inherited `Object`
constructor function. -/
theorem roomZonesJs_constructor (roomType : String)
    (h : jsToLower roomType = ("constructor")) :
    roomZonesJs roomType = ZonesValue.constructorFn := by
  unfold roomZonesJs
  rw [h]
  rfl

/-- C7 counterexample. The claim's zone-assignment discipline fails at
roomType "__proto__": the lookup finds the truthy inherited
`Object.prototype` (so `|| zones.default` never fires), whose `length` is
`undefined`, and the engine produces ZERO placements for the 8 candidates —
not the 4 that assignment into the default template (which the claim
prescribes for an unrecognized room type) would produce. At roomType
"constructor" the engine is not even total: it throws a TypeError on the
first candidate. -/
theorem claim_C7_counterexample :
    generateProductPlacementsJs groupsC7 ("__proto__") = Except.ok []
    ∧ (placeGroups defaultZones groupsC7 0).length = 4
    ∧ generateProductPlacementsJs groupsC7 ("__proto__")
        ≠ Except.ok (placeGroups defaultZones groupsC7 0)
    ∧ generateProductPlacementsJs groupsC7 ("constructor") = Except.error JsError.typeError := by
  refine ⟨rfl, by decide, ?_, rfl⟩
  intro h
  rw [show generateProductPlacementsJs groupsC7 ("__proto__") = Except.ok [] from rfl] at h
  injection h with h2
  exact absurd h2 (by decide)

/-- C7 amended. For every roomType whose lowered form is neither
"constructor" nor "__proto__", the engine behaves exactly as claimed: it is
a pure function pairing the candidate list — the first at most 2 products of
each group, in group order — with the selected template's zone anchors in
template order, so the output length is min(candidates, zones) (remainder
silently dropped, no wrapping or reuse) and the coordinate sequence is the
zone-template prefix of that length; for "living room" (6 zones) with 4
groups of 2 products each, the 8 candidates produce exactly 6 placements.
For the lowered key "__proto__" the engine returns zero placements, and for
"constructor" it throws a TypeError on the first candidate (returning empty
only when there are no candidates). -/
theorem claim_C7_amended :
    (∀ (groups : List MatchedGroup) (roomType : String),
       jsToLower roomType ≠ ("constructor") → jsToLower roomType ≠ ("__proto__") →
       generateProductPlacementsJs groups roomType
           = Except.ok (generateProductPlacements groups roomType)
       ∧ (generateProductPlacements groups roomType).length
           = min (placementCandidates groups).length (roomZones roomType).length
       ∧ (generateProductPlacements groups roomType).map (fun pl => (pl.x, pl.y))
           = (roomZones roomType).take (generateProductPlacements groups roomType).length)
    ∧ (∀ (groups : List MatchedGroup) (roomType : String),
       jsToLower roomType = ("__proto__") →
       generateProductPlacementsJs groups roomType = Except.ok [])
    ∧ (∀ (groups : List MatchedGroup) (roomType : String),
       jsToLower roomType = ("constructor") → placementCandidates groups ≠ [] →
       generateProductPlacementsJs groups roomType = Except.error JsError.typeError)
    ∧ (placementCandidates groupsC7).length = 8
    ∧ (generateProductPlacements groupsC7 ("living room")).length = 6 := by
  refine ⟨?_, ?_, ?_, by decide, by decide⟩
  · intro groups roomType hc hp
    refine ⟨?_, ?_, ?_⟩
    · simp only [generateProductPlacementsJs, roomZonesJs_eq_template roomType hc hp]
      rfl
    · rw [generateProductPlacements_eq, List.length_map, List.length_zip]
    · rw [generateProductPlacements_eq, List.map_map, List.length_map, List.length_zip]
      show ((placementCandidates groups).zip (roomZones roomType)).map Prod.snd = _
      rw [map_snd_zip_eq_take]
  · intro groups roomType h
    simp only [generateProductPlacementsJs, roomZonesJs_proto roomType h]
  · intro groups roomType h hne
    simp only [generateProductPlacementsJs, roomZonesJs_constructor roomType h, if_neg hne]

/-- Witness for the amended C7: the "living room" scenario agrees between
the full and own-property models and yields min(8, 6) = 6 placements, while
the inherited keys give zero placements and a TypeError respectively. -/
theorem claim_C7_amended_witness :
    generateProductPlacementsJs groupsC7 ("living room")
        = Except.ok (generateProductPlacements groupsC7 ("living room"))
    ∧ (generateProductPlacements groupsC7 ("living room")).length
        = min (placementCandidates groupsC7).length (roomZones ("living room")).length
    ∧ generateProductPlacementsJs groupsC7 ("__proto__") = Except.ok []
    ∧ generateProductPlacementsJs groupsC7 ("constructor") = Except.error JsError.typeError :=
  ⟨(claim_C7_amended.1 groupsC7 ("living room") (by decide) (by decide)).1,
   (claim_C7_amended.1 groupsC7 ("living room") (by decide) (by decide)).2.1,
   claim_C7_amended.2.1 groupsC7 ("__proto__") (by decide),
   claim_C7_amended.2.2.1 groupsC7 ("constructor") (by decide) (by decide)⟩

end Nyumba
